import Mathlib

/-!
Verification of the recipe-platform backend core: the configuration loader
(`app/core/config.py`), the connection lifecycle manager
(`app/core/database.py`), and the root endpoint (`app/main.py`).

The Python module state is embedded as an explicit `DBState` record threaded
through the operations.  Client handles are identified by a creation counter
(`nextId`) so that identity and freshness of handles are expressible; the
`live` field records the ids of client handles that have been constructed and
not yet closed, mirroring which driver connections are open.
-/

/-- The record of `Settings` fields from `app/core/config.py`: ENV and DEBUG
with defaults, MONGODB_URL required, DATABASE_NAME defaulting to
"recipe_db". -/
structure Settings where
  ENV : String
  DEBUG : Bool
  MONGODB_URL : String
  DATABASE_NAME : String
deriving DecidableEq, Repr

/-- Lowercasing of a key, character by character, for case-insensitive
matching of configuration keys. -/
def lowerChars (s : String) : List Char := s.data.map Char.toLower

/-- Case-insensitive lookup of a key in the configuration sources
(environment variables / `.env.local` entries), mirroring
`case_sensitive=False` in `SettingsConfigDict`. -/
def lookupCI (env : List (String × String)) (key : String) : Option String :=
  (env.find? (fun p => lowerChars p.1 = lowerChars key)).map (fun p => p.2)

/-- The pydantic boolean validator for string inputs: it accepts the usual
truthy/falsy spellings case-insensitively and rejects anything else. -/
def parseBool (s : String) : Except String Bool :=
  let t := lowerChars s
  if t = "1".data ∨ t = "on".data ∨ t = "t".data ∨ t = "true".data ∨
     t = "y".data ∨ t = "yes".data then
    Except.ok true
  else if t = "0".data ∨ t = "off".data ∨ t = "f".data ∨ t = "false".data ∨
          t = "n".data ∨ t = "no".data then
    Except.ok false
  else
    Except.error "value could not be parsed to a boolean"

/-- Instantiation of `Settings()` at import time: each field is filled from
the configuration sources (matched case-insensitively) or from its default;
a missing `MONGODB_URL` is a validation error, which at import time aborts
process start. -/
def loadSettings (env : List (String × String)) : Except String Settings :=
  match (match lookupCI env "DEBUG" with
         | none => Except.ok true
         | some v => parseBool v : Except String Bool) with
  | Except.error e => Except.error e
  | Except.ok debugField =>
      match lookupCI env "MONGODB_URL" with
      | none => Except.error "MONGODB_URL: Field required"
      | some url =>
          Except.ok { ENV := (lookupCI env "ENV").getD "development",
                      DEBUG := debugField,
                      MONGODB_URL := url,
                      DATABASE_NAME := (lookupCI env "DATABASE_NAME").getD "recipe_db" }

/-- A client handle (`AsyncIOMotorClient(settings.MONGODB_URL)`): identified
by the value of the creation counter at its construction, and carrying the
connection string it was constructed with. -/
structure ClientHandle where
  id : Nat
  url : String
deriving DecidableEq, Repr

/-- A database handle (`client[settings.DATABASE_NAME]`): a view on a client
handle scoped to a database name. -/
structure Database where
  client : ClientHandle
  name : String
deriving DecidableEq, Repr

/-- The process-wide state of `app/core/database.py`: the module-level
`client` variable, a counter generating fresh handle identities, and the ids
of client handles constructed and not yet closed. -/
structure DBState where
  client : Option ClientHandle
  nextId : Nat
  live : List Nat
deriving DecidableEq, Repr

/-- The module state at import time: `client` is `None`. -/
def initState : DBState :=
  { client := none, nextId := 0, live := [] }

/-- The acquisition operation `get_db`: if `client is None`, construct a new
client from `settings.MONGODB_URL` and store it; then return
`client[settings.DATABASE_NAME]`.  The result pair is (yielded database
handle, module state after the call). -/
def get_db (settings : Settings) (s : DBState) : Database × DBState :=
  match s.client with
  | none =>
      let c : ClientHandle := { id := s.nextId, url := settings.MONGODB_URL }
      ({ client := c, name := settings.DATABASE_NAME },
       { client := some c, nextId := s.nextId + 1, live := s.live ++ [c.id] })
  | some c =>
      ({ client := c, name := settings.DATABASE_NAME }, s)

/-- The `finally` block of `get_db`, run when the generator scope ends after
one unit of work: it is `pass`, so the module state is returned unchanged. -/
def get_db_finally (s : DBState) : DBState := s

/-- The shutdown operation `close_db`: if `client is not None`, call
`client.close()` (the id of the handle leaves the live set) and set
`client = None`; otherwise do nothing. -/
def close_db (s : DBState) : DBState :=
  match s.client with
  | none => s
  | some c => { client := none, nextId := s.nextId, live := s.live.erase c.id }

/-- The two operations the external collaborators invoke on the lifecycle
manager: acquisition (`get_db`) and shutdown (`close_db`). -/
inductive Op where
  | acquire
  | shutdown
deriving DecidableEq, Repr

/-- One step of the lifecycle manager: the state effect of one operation. -/
def step (settings : Settings) (s : DBState) : Op → DBState
  | Op.acquire => (get_db settings s).2
  | Op.shutdown => close_db s

/-- Running a sequence of operations from a state. -/
def run (settings : Settings) (s : DBState) (ops : List Op) : DBState :=
  ops.foldl (step settings) s

/-- A run of consecutive `get_db` calls from a state: the list of yielded
database handles, in call order, paired with the final state. -/
def acquireSeq (settings : Settings) (s : DBState) : Nat → List Database × DBState
  | 0 => ([], s)
  | n + 1 =>
      ((get_db settings s).1 :: (acquireSeq settings (get_db settings s).2 n).1,
       (acquireSeq settings (get_db settings s).2 n).2)

/-- The call `db.list_collection_names()` on a database handle, with the
external database server modelled as an oracle from (connection string,
database name) to the list of collection names. -/
def list_collection_names (world : String → String → List String)
    (db : Database) : List String :=
  world db.client.url db.name

/-- The JSON record returned by the root endpoint in `app/main.py`. -/
structure RootResponse where
  message : String
  db_collections : List String
  env : String
deriving DecidableEq, Repr

/-- The `root` handler: acquire a database handle via `get_db`, list its
collections, and return the message / collections / ENV record; the
dependency generator runs its `finally` block afterwards. -/
def root (settings : Settings) (world : String → String → List String)
    (s : DBState) : RootResponse × DBState :=
  let p := get_db settings s
  ({ message := "Response from FastAPI backend!",
     db_collections := list_collection_names world p.1,
     env := settings.ENV },
   get_db_finally p.2)

/-- The state invariant of the lifecycle manager: the live set is exactly the
singleton of the stored client id (or empty when the client is absent), and
every stored client id is below the freshness counter. -/
def inv (s : DBState) : Prop :=
  (∀ c, s.client = some c → s.live = [c.id] ∧ c.id < s.nextId) ∧
  (s.client = none → s.live = [])

/-- Concrete configuration used by the witnesses, matching the scenario of
the specification. -/
def settings0 : Settings :=
  { ENV := "development", DEBUG := true,
    MONGODB_URL := "mongodb://localhost:27017", DATABASE_NAME := "recipe_db" }

/-- Concrete configuration sources used by the witnesses. -/
def env0 : List (String × String) :=
  [("MONGODB_URL", "mongodb://localhost:27017")]

/-- The client handle constructed by the first acquisition from the initial
state under `settings0`. -/
def c0 : ClientHandle :=
  { id := 0, url := "mongodb://localhost:27017" }

/-- The database handle yielded by the first acquisition from the initial
state under `settings0`. -/
def db0 : Database :=
  { client := c0, name := "recipe_db" }

/-- The module state after the first acquisition from the initial state. -/
def s1 : DBState := (get_db settings0 initState).2

/-! ### Helper lemmas -/

/-- After any `get_db` call the module-level client is exactly the client of
the yielded handle. -/
theorem get_db_state_client (settings : Settings) (s : DBState) :
    ((get_db settings s).2).client = some ((get_db settings s).1).client := by
  cases h : s.client <;> simp [get_db, h]

/-- A `get_db` call on a state whose client is live yields that client and
leaves the state unchanged. -/
theorem get_db_of_live (settings : Settings) (s : DBState) (c : ClientHandle)
    (h : s.client = some c) :
    get_db settings s = ({ client := c, name := settings.DATABASE_NAME }, s) := by
  simp [get_db, h]

/-- Every handle yielded by a run of consecutive `get_db` calls from a live
state has the client stored in that state. -/
theorem acquireSeq_clients (settings : Settings) :
    ∀ (n : Nat) (s : DBState) (c : ClientHandle), s.client = some c →
      ∀ db ∈ (acquireSeq settings s n).1, db.client = c := by
  intro n
  induction n with
  | zero => intro s c _ db hdb; simp [acquireSeq] at hdb
  | succ m ih =>
      intro s c hc db hdb
      rw [acquireSeq] at hdb
      simp only [get_db_of_live settings s c hc] at hdb
      rcases List.mem_cons.mp hdb with h | h
      · rw [h]
      · exact ih s c hc db h

/-- The invariant holds in the initial state. -/
theorem inv_init : inv initState := by
  constructor
  · intro c h; simp [initState] at h
  · intro _; rfl

/-- The invariant is preserved by every operation. -/
theorem inv_step (settings : Settings) (s : DBState) (op : Op) (h : inv s) :
    inv (step settings s op) := by
  obtain ⟨hsome, hnone⟩ := h
  cases op with
  | acquire =>
      cases hc : s.client with
      | none =>
          have hstep : step settings s Op.acquire =
              { client := some { id := s.nextId, url := settings.MONGODB_URL },
                nextId := s.nextId + 1, live := s.live ++ [s.nextId] } := by
            simp [step, get_db, hc]
          rw [hstep]
          constructor
          · intro c hcc
            have hceq : ({ id := s.nextId, url := settings.MONGODB_URL } :
                ClientHandle) = c := by simpa using hcc
            subst hceq
            refine ⟨?_, ?_⟩
            · rw [hnone hc]; simp
            · simp
          · intro hcc; simp at hcc
      | some c0 =>
          have hstep : step settings s Op.acquire = s := by
            simp [step, get_db, hc]
          rw [hstep]; exact ⟨hsome, hnone⟩
  | shutdown =>
      cases hc : s.client with
      | none =>
          have hstep : step settings s Op.shutdown = s := by
            simp [step, close_db, hc]
          rw [hstep]; exact ⟨hsome, hnone⟩
      | some c0 =>
          have hstep : step settings s Op.shutdown =
              { client := none, nextId := s.nextId, live := s.live.erase c0.id } := by
            simp [step, close_db, hc]
          rw [hstep]
          constructor
          · intro c hcc; simp at hcc
          · intro _
            rw [(hsome c0 hc).1]
            simp

/-- The invariant is preserved by every run of operations. -/
theorem inv_run (settings : Settings) (ops : List Op) :
    ∀ s, inv s → inv (run settings s ops) := by
  induction ops with
  | nil => intro s h; exact h
  | cons op rest ih =>
      intro s h
      exact ih (step settings s op) (inv_step settings s op h)

/-! ### Claims -/

/-- C1: for every sequence of `get_db` calls with no intervening `close_db`,
starting from an absent client, the first call sets the process-wide client
to the client of the handle it yields, and every handle yielded anywhere in
the sequence has that identical client. -/
theorem acquire_identity_stable (settings : Settings) (s : DBState) (n : Nat)
    (db : Database) (h : s.client = none)
    (hdb : db ∈ (acquireSeq settings s (n + 1)).1) :
    ((get_db settings s).1).client =
      { id := s.nextId, url := settings.MONGODB_URL } ∧
    ((get_db settings s).2).client = some ((get_db settings s).1).client ∧
    db.client = ((get_db settings s).1).client := by
  refine ⟨by simp [get_db, h], get_db_state_client settings s, ?_⟩
  rw [acquireSeq] at hdb
  rcases List.mem_cons.mp hdb with h1 | h1
  · rw [h1]
  · exact acquireSeq_clients settings n ((get_db settings s).2)
      ((get_db settings s).1).client (get_db_state_client settings s) db h1

/-- Witness for C1 at the scenario configuration, three calls from the
initial state. -/
theorem acquire_identity_stable_witness :
    ((get_db settings0 initState).1).client = c0 ∧
    ((get_db settings0 initState).2).client = some ((get_db settings0 initState).1).client ∧
    db0.client = ((get_db settings0 initState).1).client :=
  acquire_identity_stable settings0 initState 2 db0 rfl (by decide)

/-- C2: `close_db` on a live state releases the client and sets the state to
absent, and a subsequent `get_db` constructs a new client handle distinct
from the released one (and installs it as the process-wide client).  The
counter hypothesis is the freshness part of the state invariant `inv`. -/
theorem close_then_acquire_fresh (settings : Settings) (s : DBState)
    (c : ClientHandle) (h : s.client = some c) (hwf : c.id < s.nextId) :
    (close_db s).client = none ∧
    ((get_db settings (close_db s)).1).client ≠ c ∧
    ((get_db settings (close_db s)).2).client =
      some ((get_db settings (close_db s)).1).client := by
  have h1 : (close_db s).client = none := by simp [close_db, h]
  have h2 : (close_db s).nextId = s.nextId := by simp [close_db, h]
  refine ⟨h1, ?_, get_db_state_client settings (close_db s)⟩
  have h3 : ((get_db settings (close_db s)).1).client =
      { id := (close_db s).nextId, url := settings.MONGODB_URL } := by
    simp [get_db, h1]
  rw [h3, h2]
  intro hcon
  have hid : s.nextId = c.id := congrArg ClientHandle.id hcon
  omega

/-- Witness for C2: close after the first acquisition, then acquire again. -/
theorem close_then_acquire_fresh_witness :
    (close_db s1).client = none ∧
    ((get_db settings0 (close_db s1)).1).client ≠ c0 ∧
    ((get_db settings0 (close_db s1)).2).client =
      some ((get_db settings0 (close_db s1)).1).client :=
  close_then_acquire_fresh settings0 s1 c0 (by decide) (by decide)

/-- C3: `close_db` is idempotent: on an absent state (including the
never-initialized initial state) it returns the state unchanged, and a second
call immediately after any first call is a no-op.  It is a total function, so
no error is raised. -/
theorem close_db_noop (s : DBState) :
    (s.client = none → close_db s = s) ∧
    close_db (close_db s) = close_db s ∧
    close_db initState = initState := by
  refine ⟨fun h => by simp [close_db, h], ?_, rfl⟩
  cases h : s.client with
  | none => simp [close_db, h]
  | some c => simp [close_db, h]

/-- Witness for C3: double shutdown from the initial state and after a first
acquisition. -/
theorem close_db_noop_witness :
    close_db initState = initState ∧ close_db (close_db s1) = close_db s1 :=
  ⟨(close_db_noop initState).1 rfl, (close_db_noop s1).2.1⟩

/-- C4: regardless of the prior state, `get_db` returns a handle scoped to
the configured database name; in particular a configured name "recipe_db"
yields a handle named "recipe_db". -/
theorem get_db_scoped_name (settings : Settings) (s : DBState) :
    ((get_db settings s).1).name = settings.DATABASE_NAME ∧
    (settings.DATABASE_NAME = "recipe_db" →
      ((get_db settings s).1).name = "recipe_db") := by
  constructor
  · cases h : s.client <;> simp [get_db, h]
  · intro hd
    cases h : s.client <;> simp [get_db, h, hd]

/-- Witness for C4 at the scenario configuration. -/
theorem get_db_scoped_name_witness :
    ((get_db settings0 initState).1).name = "recipe_db" :=
  (get_db_scoped_name settings0 initState).2 rfl

/-- C5: when the required MONGODB_URL is absent from the configuration
sources, constructing `Settings` at import time fails with a validation
error, so the process never starts and no request can be served; there is no
recovery path in the loader. -/
theorem settings_requires_mongodb_url (env : List (String × String))
    (h : lookupCI env "MONGODB_URL" = none) :
    ∃ msg, loadSettings env = Except.error msg := by
  cases hd : lookupCI env "DEBUG" with
  | none => exact ⟨"MONGODB_URL: Field required", by simp [loadSettings, hd, h]⟩
  | some v =>
      cases hb : parseBool v with
      | ok b => exact ⟨"MONGODB_URL: Field required", by simp [loadSettings, hd, hb, h]⟩
      | error e => exact ⟨e, by simp [loadSettings, hd, hb]⟩

/-- Witness for C5: the empty configuration has no MONGODB_URL. -/
theorem settings_requires_mongodb_url_witness :
    ∃ msg, loadSettings [] = Except.error msg :=
  settings_requires_mongodb_url [] rfl

/-- C6: from the initial state, every interleaving of acquisitions and
shutdowns preserves the state invariant, so at most one live client handle
exists at any time: the live set has length at most one. -/
theorem at_most_one_live_client (settings : Settings) (ops : List Op) :
    inv (run settings initState ops) ∧
    (run settings initState ops).live.length ≤ 1 := by
  have hinv : inv (run settings initState ops) :=
    inv_run settings ops initState inv_init
  refine ⟨hinv, ?_⟩
  cases hc : (run settings initState ops).client with
  | none => rw [hinv.2 hc]; simp
  | some c => rw [(hinv.1 c hc).1]; simp

/-- C7: completing one unit of work after `get_db` tears nothing down: the
generator finalizer leaves the module state unchanged, and that state still
holds the very client of the yielded handle. -/
theorem request_scope_frame (settings : Settings) (s : DBState) :
    get_db_finally ((get_db settings s).2) = (get_db settings s).2 ∧
    ((get_db settings s).2).client = some ((get_db settings s).1).client :=
  ⟨rfl, get_db_state_client settings s⟩

/-- C8: transitions of the two-state machine: an acquisition from an absent
state installs a fresh client; only acquisition moves the state from absent
to live; only shutdown moves the state from live to absent; an acquisition on
a live state keeps that exact client; and the end of a unit of work changes
nothing. -/
theorem lifecycle_transitions (settings : Settings) (s : DBState)
    (c : ClientHandle) (op : Op) :
    (s.client = none → (step settings s Op.acquire).client =
        some { id := s.nextId, url := settings.MONGODB_URL }) ∧
    (s.client = none → (step settings s op).client ≠ none → op = Op.acquire) ∧
    (s.client = some c → (step settings s op).client = none → op = Op.shutdown) ∧
    (s.client = some c → (step settings s Op.acquire).client = some c) ∧
    get_db_finally s = s := by
  refine ⟨?_, ?_, ?_, ?_, rfl⟩
  · intro h; simp [step, get_db, h]
  · intro h hne
    cases op with
    | acquire => rfl
    | shutdown => exact absurd (by simp [step, close_db, h]) hne
  · intro h hn
    cases op with
    | acquire => simp [step, get_db, h] at hn
    | shutdown => rfl
  · intro h; simp [step, get_db, h]

/-- Witness for C8: a first acquisition installs the fresh client, a repeated
acquisition keeps it, and the observed live-to-absent transition is a
shutdown. -/
theorem lifecycle_transitions_witness :
    (step settings0 initState Op.acquire).client = some c0 ∧
    (step settings0 s1 Op.acquire).client = some c0 ∧
    Op.shutdown = Op.shutdown :=
  ⟨(lifecycle_transitions settings0 initState c0 Op.acquire).1 rfl,
   (lifecycle_transitions settings0 s1 c0 Op.acquire).2.2.2.1 (by decide),
   (lifecycle_transitions settings0 s1 c0 Op.shutdown).2.2.1 (by decide) (by decide)⟩

/-- C9: whenever the loader succeeds, ENV defaulted to "development" when
absent, DEBUG defaulted to true when absent, DATABASE_NAME defaulted to
"recipe_db" when absent, the connection string was necessarily present in the
sources (it has no default), and key lookup is case-insensitive. -/
theorem config_loader (env : List (String × String)) (st : Settings)
    (k1 k2 : String) (h : loadSettings env = Except.ok st) :
    (lookupCI env "ENV" = none → st.ENV = "development") ∧
    (lookupCI env "DEBUG" = none → st.DEBUG = true) ∧
    (lookupCI env "DATABASE_NAME" = none → st.DATABASE_NAME = "recipe_db") ∧
    lookupCI env "MONGODB_URL" = some st.MONGODB_URL ∧
    (lowerChars k1 = lowerChars k2 → lookupCI env k1 = lookupCI env k2) := by
  have hk : lowerChars k1 = lowerChars k2 → lookupCI env k1 = lookupCI env k2 := by
    intro hab; simp [lookupCI, hab]
  cases hd : lookupCI env "DEBUG" with
  | none =>
      cases hu : lookupCI env "MONGODB_URL" with
      | none => simp [loadSettings, hd, hu] at h
      | some url =>
          simp [loadSettings, hd, hu] at h
          subst h
          refine ⟨fun he => by simp [he], fun _ => by simp, fun he => by simp [he],
                  by simp [hu], hk⟩
  | some v =>
      cases hb : parseBool v with
      | error e => simp [loadSettings, hd, hb] at h
      | ok b =>
          cases hu : lookupCI env "MONGODB_URL" with
          | none => simp [loadSettings, hd, hb, hu] at h
          | some url =>
              simp [loadSettings, hd, hb, hu] at h
              subst h
              refine ⟨fun he => by simp [he], ?_, fun he => by simp [he],
                      by simp [hu], hk⟩
              intro he
              exact Option.noConfusion he

/-- Witness for C9 at a configuration holding only the connection string. -/
theorem config_loader_witness :
    settings0.ENV = "development" ∧
    settings0.DEBUG = true ∧
    settings0.DATABASE_NAME = "recipe_db" ∧
    lookupCI env0 "MONGODB_URL" = some settings0.MONGODB_URL ∧
    lookupCI env0 "mongodb_url" = lookupCI env0 "MONGODB_URL" :=
  ⟨(config_loader env0 settings0 "mongodb_url" "MONGODB_URL" rfl).1 (by decide),
   (config_loader env0 settings0 "mongodb_url" "MONGODB_URL" rfl).2.1 (by decide),
   (config_loader env0 settings0 "mongodb_url" "MONGODB_URL" rfl).2.2.1 (by decide),
   (config_loader env0 settings0 "mongodb_url" "MONGODB_URL" rfl).2.2.2.1,
   (config_loader env0 settings0 "mongodb_url" "MONGODB_URL" rfl).2.2.2.2 (by decide)⟩

/-- C10: every response of the root endpoint carries the fixed message, the
configured ENV value, and the collection names listed through the database
handle obtained from `get_db`. -/
theorem root_response_fields (settings : Settings)
    (world : String → String → List String) (s : DBState) :
    ((root settings world s).1).message = "Response from FastAPI backend!" ∧
    ((root settings world s).1).env = settings.ENV ∧
    ((root settings world s).1).db_collections =
      list_collection_names world ((get_db settings s).1) :=
  ⟨rfl, rfl, rfl⟩
